import Mathlib

/-!
# crab2mlir-translate: the command-line entry point

The program is the single function `main` of `crab2mlir-translate.cpp`:

    int main(int argc, char **argv) {
      mlir::registerAllTranslations();
      return failed(
          mlir::mlirTranslateMain(argc, argv, "MLIR Translation Testing Tool"));
    }

`main` is embedded by explicit state passing.  The two routines it calls belong
to the MLIR framework, whose code is not part of the program; they are therefore
parameters of the embedding (`Framework`), and every theorem quantifies over all
of them.  The process carries the framework's process-wide state (the translation
registry and whatever else the framework keeps) together with a ghost log of the
framework calls made so far, so that order and number of calls can be stated.
-/

namespace Crab2Mlir

/-! ## Values -/

/-- Modelled from the spec: the type `mlir::LogicalResult`, declared in the
framework header `mlir/Support/LogicalResult.h`, which is not among the sources.
The spec calls it "a boolean-like result code produced by the driver call": the
driver "reports success or failure". -/
inductive LogicalResult where
  | success
  | failure
  deriving DecidableEq, Repr

/-- Modelled from the spec: the helper `mlir::failed` of the same framework
header, not among the sources.  It is the boolean "the driver reports failure". -/
def failed : LogicalResult → Bool
  | LogicalResult.success => false
  | LogicalResult.failure => true

/-- The implicit conversion of a C++ `bool` to `int` that happens at
`return failed(...)` in a function returning `int`: `false` is 0, `true` is 1. -/
def boolToInt : Bool → Int
  | false => 0
  | true => 1

/-! ## Framework calls -/

/-- The framework entry points that `main` can call, with their explicit arguments.
`argc` is the C `int`, `argv` the argument vector, `toolName` the description. -/
inductive Call where
  | registerAllTranslations
  | mlirTranslateMain (argc : Int) (argv : List String) (toolName : String)
  deriving DecidableEq, Repr

/-- Is this call the registration step? -/
def Call.isRegistration : Call → Bool
  | Call.registerAllTranslations => true
  | Call.mlirTranslateMain _ _ _ => false

/-- Is this call the driver call? -/
def Call.isDriver : Call → Bool
  | Call.registerAllTranslations => false
  | Call.mlirTranslateMain _ _ _ => true

/-- The external framework over its process-wide state `σ`.
`registerAllTranslations` returns nothing and only updates the state;
`mlirTranslateMain` reads the state (the registry is passed implicitly),
reports a `LogicalResult` and leaves a new state. -/
structure Framework (σ : Type) where
  registerAllTranslations : σ → σ
  mlirTranslateMain : Int → List String → String → σ → LogicalResult × σ

/-- One entry of the ghost log: the call, the framework state it started from,
what it reported (`none` for a call returning `void`) and the state it left. -/
structure CallRecord (σ : Type) where
  call : Call
  before : σ
  result : Option LogicalResult
  after : σ

/-- The running process: the framework state and the ghost log of calls. -/
structure Process (σ : Type) where
  state : σ
  log : List (CallRecord σ)

/-- A process at the moment `main` is entered: nothing has been called yet. -/
def Process.start {σ : Type} (s : σ) : Process σ :=
  { state := s, log := [] }

/-- The statement `mlir::registerAllTranslations();`. -/
def callRegisterAllTranslations {σ : Type} (fw : Framework σ) (p : Process σ) : Process σ :=
  let s := fw.registerAllTranslations p.state
  { state := s
    log := p.log ++ [{ call := Call.registerAllTranslations, before := p.state,
                       result := none, after := s }] }

/-- The expression `mlir::mlirTranslateMain(argc, argv, toolName)`. -/
def callMlirTranslateMain {σ : Type} (fw : Framework σ) (argc : Int) (argv : List String)
    (toolName : String) (p : Process σ) : LogicalResult × Process σ :=
  let out := fw.mlirTranslateMain argc argv toolName p.state
  (out.1,
   { state := out.2
     log := p.log ++ [{ call := Call.mlirTranslateMain argc argv toolName, before := p.state,
                        result := some out.1, after := out.2 }] })

/-! ## The program -/

/-- The function `main` of `crab2mlir-translate.cpp`: register, drive, and return
`failed(result)` converted to `int`. -/
def main {σ : Type} (fw : Framework σ) (argc : Int) (argv : List String) (p : Process σ) :
    Int × Process σ :=
  let p1 := callRegisterAllTranslations fw p
  let r := callMlirTranslateMain fw argc argv "MLIR Translation Testing Tool" p1
  (boolToInt (failed r.1), r.2)

/-! ## Observations on a run -/

/-- The driver call recorded in the log of `p` reported `r`. -/
def driverReports {σ : Type} (p : Process σ) (r : LogicalResult) : Prop :=
  ∃ rec ∈ p.log, rec.call.isDriver = true ∧ rec.result = some r

/-- The calls of a process, in the order they were made. -/
def Process.calls {σ : Type} (p : Process σ) : List Call :=
  p.log.map CallRecord.call

/-! ## A concrete framework

A toy framework on which the theorems are instantiated.  Its state is the list of
translation flags that have been registered; registration installs one flag unless
it is already there; the driver succeeds exactly when the first argument after the
program name is a registered flag.  It is not a model of MLIR. -/

/-- The toy framework described above. -/
def sampleFramework : Framework (List String) where
  registerAllTranslations := fun reg =>
    if "--import-llvm" ∈ reg then reg else "--import-llvm" :: reg
  mlirTranslateMain := fun _ argv _ reg =>
    match argv with
    | _ :: flag :: _ => (if flag ∈ reg then LogicalResult.success else LogicalResult.failure, reg)
    | _ => (LogicalResult.failure, reg)

/-- A second toy framework whose driver accepts every argument vector. -/
def permissiveFramework : Framework Unit where
  registerAllTranslations := fun u => u
  mlirTranslateMain := fun _ _ _ u => (LogicalResult.success, u)

/-- An argument vector the toy driver accepts once the registry is populated. -/
def acceptedArgv : List String := ["crab2mlir-translate", "--import-llvm"]

/-- An argument vector the toy driver rejects. -/
def rejectedArgv : List String := ["crab2mlir-translate", "--no-such-translation"]

/-! ## Basic facts about a run of `main` -/

/-- The log of a fresh run of `main` has exactly two records. -/
theorem main_log {σ : Type} (fw : Framework σ) (argc : Int) (argv : List String) (s : σ) :
    (main fw argc argv (Process.start s)).2.log =
      [ { call := Call.registerAllTranslations, before := s, result := none,
          after := fw.registerAllTranslations s },
        { call := Call.mlirTranslateMain argc argv "MLIR Translation Testing Tool",
          before := fw.registerAllTranslations s,
          result := some (fw.mlirTranslateMain argc argv "MLIR Translation Testing Tool"
                      (fw.registerAllTranslations s)).1,
          after := (fw.mlirTranslateMain argc argv "MLIR Translation Testing Tool"
                      (fw.registerAllTranslations s)).2 } ] := by
  rfl

/-- The value returned by a fresh run of `main`. -/
theorem main_exit {σ : Type} (fw : Framework σ) (argc : Int) (argv : List String) (s : σ) :
    (main fw argc argv (Process.start s)).1 =
      boolToInt (failed (fw.mlirTranslateMain argc argv "MLIR Translation Testing Tool"
        (fw.registerAllTranslations s)).1) := by
  rfl

/-- In a fresh run of `main` the driver reports `r` exactly when the framework's
driver, run on the populated registry, returns `r`. -/
theorem driverReports_main {σ : Type} (fw : Framework σ) (argc : Int) (argv : List String)
    (s : σ) (r : LogicalResult) :
    driverReports (main fw argc argv (Process.start s)).2 r ↔
      (fw.mlirTranslateMain argc argv "MLIR Translation Testing Tool"
        (fw.registerAllTranslations s)).1 = r := by
  unfold driverReports
  rw [main_log]
  simp [Call.isDriver]

/-- The framework state a fresh run of `main` ends in. -/
theorem main_state {σ : Type} (fw : Framework σ) (argc : Int) (argv : List String) (s : σ) :
    (main fw argc argv (Process.start s)).2.state =
      (fw.mlirTranslateMain argc argv "MLIR Translation Testing Tool"
        (fw.registerAllTranslations s)).2 := by
  rfl

/-- Splitting a two-element list around one of its elements. -/
theorem split_pair {α : Type} (a b x : α) (pre suf : List α) (h : [a, b] = pre ++ x :: suf) :
    (pre = [] ∧ x = a ∧ suf = [b]) ∨ (pre = [a] ∧ x = b ∧ suf = []) := by
  match pre, h with
  | [], h =>
    simp only [List.nil_append, List.cons.injEq] at h
    exact Or.inl ⟨rfl, h.1.symm, h.2.symm⟩
  | [y], h =>
    simp only [List.cons_append, List.nil_append, List.cons.injEq] at h
    obtain ⟨h1, h2, h3⟩ := h
    exact Or.inr ⟨by rw [h1], h2.symm, h3.symm⟩
  | y :: z :: rest, h =>
    simp at h

/-- What `main` returns for an argument vector holding only the program name is
decided by the framework's driver, not by `main`: the two toy frameworks give
different statuses on the same arguments. -/
theorem program_name_only_status_depends_on_driver :
    (main sampleFramework 1 ["crab2mlir-translate"] (Process.start [])).1 = 1 ∧
      (main permissiveFramework 1 ["crab2mlir-translate"] (Process.start ())).1 = 0 :=
  ⟨by decide, by decide⟩

/-! ## The claims -/

/-- C1: for every argument count and argument vector, if the driver
`mlirTranslateMain` called by `main` reports success, `main` returns 0. -/
theorem main_returns_zero_of_driver_success {σ : Type} (fw : Framework σ) (argc : Int)
    (argv : List String) (s : σ)
    (h : driverReports (main fw argc argv (Process.start s)).2 LogicalResult.success) :
    (main fw argc argv (Process.start s)).1 = 0 := by
  rw [driverReports_main] at h
  rw [main_exit, h]
  rfl

/-- Witness of C1: on the toy framework the accepted argument vector makes the
driver report success, and `main` returns 0. -/
theorem main_returns_zero_of_driver_success_witness :
    driverReports (main sampleFramework 2 acceptedArgv (Process.start [])).2
        LogicalResult.success ∧
      (main sampleFramework 2 acceptedArgv (Process.start [])).1 = 0 :=
  ⟨(driverReports_main sampleFramework 2 acceptedArgv [] LogicalResult.success).2 (by decide),
   main_returns_zero_of_driver_success sampleFramework 2 acceptedArgv []
     ((driverReports_main sampleFramework 2 acceptedArgv [] LogicalResult.success).2
       (by decide))⟩

/-- C2: for every argument count and argument vector, if the driver called by
`main` reports failure, `main` returns a non-zero status.  The failure is only
surfaced: the failing driver call is the last call of the run (no recovery),
the framework state is left as the driver left it, and any two failing runs, of
any framework on any arguments, return the same status (no classification). -/
theorem main_returns_nonzero_of_driver_failure {σ : Type} (fw : Framework σ) (argc : Int)
    (argv : List String) (s : σ)
    (h : driverReports (main fw argc argv (Process.start s)).2 LogicalResult.failure) :
    (main fw argc argv (Process.start s)).1 ≠ 0 ∧
      (∃ rec, (main fw argc argv (Process.start s)).2.log.getLast? = some rec ∧
        rec.call.isDriver = true ∧ rec.result = some LogicalResult.failure ∧
        (main fw argc argv (Process.start s)).2.state = rec.after) ∧
      (∀ (τ : Type) (fw2 : Framework τ) (argc2 : Int) (argv2 : List String) (s2 : τ),
        driverReports (main fw2 argc2 argv2 (Process.start s2)).2 LogicalResult.failure →
        (main fw2 argc2 argv2 (Process.start s2)).1 =
          (main fw argc argv (Process.start s)).1) := by
  rw [driverReports_main] at h
  refine ⟨?_, ?_, ?_⟩
  · rw [main_exit, h]
    decide
  · rw [main_log, main_state, h]
    exact ⟨_, rfl, rfl, rfl, rfl⟩
  · intro τ fw2 argc2 argv2 s2 h2
    rw [driverReports_main] at h2
    rw [main_exit, main_exit, h, h2]

/-- Witness of C2: on the toy framework the rejected argument vector makes the
driver report failure, and `main` behaves as C2 says. -/
theorem main_returns_nonzero_of_driver_failure_witness :
    driverReports (main sampleFramework 2 rejectedArgv (Process.start [])).2
        LogicalResult.failure ∧
      (main sampleFramework 2 rejectedArgv (Process.start [])).1 ≠ 0 :=
  ⟨(driverReports_main sampleFramework 2 rejectedArgv [] LogicalResult.failure).2 (by decide),
   (main_returns_nonzero_of_driver_failure sampleFramework 2 rejectedArgv []
     ((driverReports_main sampleFramework 2 rejectedArgv [] LogicalResult.failure).2
       (by decide))).1⟩

/-- C3: in every run of `main` the registration step occurs exactly once, and it
has completed before the driver call begins: every driver call of the run is
preceded in the log by a registration that started from the state `main` was
entered with, and the driver starts from the state that registration left, that
is, from the populated registry. -/
theorem registration_once_and_before_driver {σ : Type} (fw : Framework σ) (argc : Int)
    (argv : List String) (s : σ) :
    ((main fw argc argv (Process.start s)).2.log.filter
        (fun rec => rec.call.isRegistration)).length = 1 ∧
      ∀ (pre : List (CallRecord σ)) (rec : CallRecord σ) (suf : List (CallRecord σ)),
        (main fw argc argv (Process.start s)).2.log = pre ++ rec :: suf →
        rec.call.isDriver = true →
        rec.before = fw.registerAllTranslations s ∧
          ∃ reg ∈ pre, reg.call = Call.registerAllTranslations ∧ reg.before = s ∧
            reg.after = rec.before := by
  rw [main_log]
  refine ⟨rfl, ?_⟩
  intro pre rec suf hsplit hdriver
  rcases split_pair _ _ _ _ _ hsplit with ⟨_, hrec, _⟩ | ⟨hpre, hrec, _⟩
  · rw [hrec] at hdriver
    simp [Call.isDriver] at hdriver
  · rw [hpre, hrec]
    exact ⟨rfl, _, List.mem_singleton.2 rfl, rfl, rfl, rfl⟩

/-- Instance of C3 on the toy framework, entered with an empty registry: the
driver call found the flag registered, which it would not have without the
registration step. -/
theorem registration_once_and_before_driver_witness :
    ((main sampleFramework 2 acceptedArgv (Process.start [])).2.log.filter
        (fun rec => rec.call.isRegistration)).length = 1 ∧
      driverReports (main sampleFramework 2 acceptedArgv (Process.start [])).2
        LogicalResult.success ∧
      (sampleFramework.mlirTranslateMain 2 acceptedArgv "MLIR Translation Testing Tool" []).1 =
        LogicalResult.failure :=
  ⟨(registration_once_and_before_driver sampleFramework 2 acceptedArgv []).1,
   (driverReports_main sampleFramework 2 acceptedArgv [] LogicalResult.success).2 (by decide),
   by decide⟩

/-- C4: for every argument count and argument vector given to `main`, the driver
is called with exactly that count and that vector and with the fixed description
"MLIR Translation Testing Tool": a driver call with arguments `a`, `v`, `n` is in
the run exactly when `a`, `v`, `n` are these.  No condition is put on `argc` and
`argv` (nothing is validated), and what the run records as the driver's report
and final state is what the framework's driver computes on these arguments. -/
theorem driver_receives_main_arguments {σ : Type} (fw : Framework σ) (argc : Int)
    (argv : List String) (s : σ) :
    (∀ (a : Int) (v : List String) (n : String),
        Call.mlirTranslateMain a v n ∈ (main fw argc argv (Process.start s)).2.calls ↔
          (a = argc ∧ v = argv ∧ n = "MLIR Translation Testing Tool")) ∧
      ∀ rec ∈ (main fw argc argv (Process.start s)).2.log, rec.call.isDriver = true →
        rec.result = some (fw.mlirTranslateMain argc argv "MLIR Translation Testing Tool"
          rec.before).1 ∧
        rec.after = (fw.mlirTranslateMain argc argv "MLIR Translation Testing Tool"
          rec.before).2 := by
  unfold Process.calls
  rw [main_log]
  refine ⟨?_, ?_⟩
  · intro a v n
    simp
  · intro rec hrec hdriver
    simp only [List.mem_cons, List.mem_singleton, List.not_mem_nil, or_false] at hrec
    rcases hrec with hrec | hrec
    · rw [hrec] at hdriver
      simp [Call.isDriver] at hdriver
    · rw [hrec]
      exact ⟨rfl, rfl⟩

/-- Instance of C4 on the toy framework, with an argument count that does not
match the argument vector: both reach the driver as given. -/
theorem driver_receives_main_arguments_witness :
    Call.mlirTranslateMain (-7) rejectedArgv "MLIR Translation Testing Tool" ∈
      (main sampleFramework (-7) rejectedArgv (Process.start [])).2.calls :=
  ((driver_receives_main_arguments sampleFramework (-7) rejectedArgv []).1 (-7) rejectedArgv
    "MLIR Translation Testing Tool").2 ⟨rfl, rfl, rfl⟩

/-- C5: in every run of `main`, whatever the driver reports, the calls made are
exactly one registration followed by exactly one driver call, and nothing else:
the driver is called once, and the run ends in the state the driver left. -/
theorem main_call_sequence {σ : Type} (fw : Framework σ) (argc : Int) (argv : List String)
    (s : σ) :
    (main fw argc argv (Process.start s)).2.calls =
        [Call.registerAllTranslations,
         Call.mlirTranslateMain argc argv "MLIR Translation Testing Tool"] ∧
      ((main fw argc argv (Process.start s)).2.log.filter
        (fun rec => rec.call.isDriver)).length = 1 ∧
      ((main fw argc argv (Process.start s)).2.log.filter
        (fun rec => rec.call.isRegistration)).length = 1 ∧
      (main fw argc argv (Process.start s)).2.state =
        (fw.mlirTranslateMain argc argv "MLIR Translation Testing Tool"
          (fw.registerAllTranslations s)).2 := by
  unfold Process.calls
  rw [main_log, main_state]
  exact ⟨rfl, rfl, rfl, rfl⟩

/-- Instance of C5 on the toy framework with a failing driver: the driver is
called once and not again. -/
theorem main_call_sequence_witness :
    (main sampleFramework 2 rejectedArgv (Process.start [])).2.calls =
      [Call.registerAllTranslations,
       Call.mlirTranslateMain 2 rejectedArgv "MLIR Translation Testing Tool"] :=
  (main_call_sequence sampleFramework 2 rejectedArgv []).1

/-- C7: for every argument vector and every driver result, `main` returns 0 or 1:
the returned value is `failed(result)` converted to `int`, for the result the
driver reported, and a failing result yields exactly 1. -/
theorem main_exit_status_zero_or_one {σ : Type} (fw : Framework σ) (argc : Int)
    (argv : List String) (s : σ) :
    ((main fw argc argv (Process.start s)).1 = 0 ∨
        (main fw argc argv (Process.start s)).1 = 1) ∧
      (∃ r, driverReports (main fw argc argv (Process.start s)).2 r) ∧
      (∀ r, driverReports (main fw argc argv (Process.start s)).2 r →
        (main fw argc argv (Process.start s)).1 = boolToInt (failed r)) ∧
      (driverReports (main fw argc argv (Process.start s)).2 LogicalResult.failure →
        (main fw argc argv (Process.start s)).1 = 1) := by
  refine ⟨?_, ?_, ?_, ?_⟩
  · rw [main_exit]
    cases (fw.mlirTranslateMain argc argv "MLIR Translation Testing Tool"
      (fw.registerAllTranslations s)).1
    · exact Or.inl rfl
    · exact Or.inr rfl
  · exact ⟨_, (driverReports_main fw argc argv s _).2 rfl⟩
  · intro r hr
    rw [driverReports_main] at hr
    rw [main_exit, hr]
  · intro hr
    rw [driverReports_main] at hr
    rw [main_exit, hr]
    rfl

/-- Instance of C7 on the toy framework with a failing driver: `main` returns 1. -/
theorem main_exit_status_zero_or_one_witness :
    (main sampleFramework 2 rejectedArgv (Process.start [])).1 = 1 :=
  (main_exit_status_zero_or_one sampleFramework 2 rejectedArgv []).2.2.2
    ((driverReports_main sampleFramework 2 rejectedArgv [] LogicalResult.failure).2 (by decide))

end Crab2Mlir
